import Mathlib

/-!
Verification model of the AWS-Incident-Response incident lifecycle
orchestrator (src/lambda/supervisor/orchestrator.py,
src/lambda/resolver/handler.py, src/lambda/watchdog/handler.py,
src/lambda/supervisor/agent.py, src/lambda/resolver/agent.py,
src/lambda/shared/agent_utils.py).

Modelling conventions:
* The DynamoDB incident-state table is modelled per incident id: `Store`
  is the record stored under the id a handler run addresses (`none` when
  absent).  Conditional updates (`ConditionExpression "#s = :from"`) are
  modelled by `transition_state`, which reports whether the condition
  held; a failed condition corresponds to DynamoDB raising
  `ConditionalCheckFailedException`.
* ISO-8601 `updated_at` timestamps are modelled as integer seconds; the
  source compares them chronologically (either parsed or
  lexicographically on ISO strings, which agrees with chronological
  order).  Thresholds in minutes become seconds (5 min = 300 s,
  10 min = 600 s).
* Each handler run is summarised as an `HOut`: the final stored record,
  the ordered trace of externally visible effects, and the value
  returned to (or exception escaping to) the Lambda transport.
* The reasoning agent (`run_agent`) is an input of the handler models:
  its observable outcome is either a returned result, a raised
  `AgentError`, or some other raised exception.
-/

namespace IncidentModel

/-- One record of the `incident-state` table, with the fields the
orchestration code reads or writes.  A record created by
`write_initial_state` has no `retry_count` attribute; the watchdog reads
a missing attribute as 0, so `retryCount` is a `Nat` that starts at 0. -/
structure Record where
  status : String
  updatedAt : Int
  retryCount : Nat
  errorReason : Option String
  errorCategory : Option String
deriving DecidableEq, Repr

/-- The state-store content under one incident id (`none` = no item). -/
abbrev Store := Option Record

/-- Externally visible effects of a handler run, in program order.
`casWrite f t` records an *attempted* conditional status write with
expected previous status `f` and new status `t` (recorded whether or not
the condition holds, since the attempt is what the state-machine claims
quantify over).  `putOther` covers unconditional writes to the audit /
context tables and the unconditional `proposal` enrichment update;
`publish` is an SNS publish of a resolver handoff message
(`incident_id` + diagnosis payload). -/
inductive Effect where
  | putIfAbsent : Effect
  | casWrite (fromStatus toStatus : String) : Effect
  | putOther (target : String) : Effect
  | invokeAgent : Effect
  | publish : Effect
deriving DecidableEq, Repr

/-- What a handler invocation yields to the transport: a 200 JSON body
with a `status` field (and optional `error_category`), the plain-text
200 body `"already handled"`, a 200 JSON body with only an `error`
field, or an exception escaping the handler. -/
inductive HResult where
  | ackStatus (code : Nat) (statusField : String) (errorCategory : Option String)
  | ackText (code : Nat) (body : String)
  | ackError (code : Nat) (message : String)
  | raised (excName : String)
deriving DecidableEq, Repr

/-- Summary of one handler run. -/
structure HOut where
  store : Store
  trace : List Effect
  result : HResult
deriving DecidableEq, Repr

/-- Python `str(error_reason)[:500]`.  The length guard returns the
string unchanged when it is already within the limit — extensionally
the same as `take 500`, but cheap to evaluate. -/
def pyTake500 (s : String) : String := if s.length ≤ 500 then s else s.take 500

/-- `transition_state` of supervisor/orchestrator.py (lines 70-101) and
resolver/handler.py (lines 30-61): a conditional update that sets
`status` and `updated_at`, plus `error_reason` (truncated to 500
characters) and `error_category` when given.  Returns the new store and
whether the condition `#s = :from_status` held; on a missing item the
condition fails as well.  The Boolean `false` outcome corresponds to
`ConditionalCheckFailedException`. -/
def transition_state (st : Store) (now : Int) (fromStatus toStatus : String)
    (errorReason errorCategory : Option String) : Store × Bool :=
  match st with
  | none => (none, false)
  | some r =>
    if r.status = fromStatus then
      (some { r with
          status := toStatus
          updatedAt := now
          errorReason :=
            match errorReason with
            | some m => some (pyTake500 m)
            | none => r.errorReason
          errorCategory :=
            match errorCategory with
            | some c => some c
            | none => r.errorCategory }, true)
    else (st, false)

/-- `write_initial_state` (orchestrator.py lines 45-58): the item put
when the id is absent. -/
def initialRecord (now : Int) : Record :=
  { status := "RECEIVED", updatedAt := now, retryCount := 0
    errorReason := none, errorCategory := none }

/-- The parsed SNS triggering event as the supervisor handler reads it:
`incident["lambda_name"]` and `incident["timestamp"]` (read with
square-bracket indexing); a missing key
raises `KeyError` and takes the malformed-payload path. -/
structure IncidentMsg where
  lambdaName : Option String
  timestamp : Option String
deriving DecidableEq, Repr

/-- Observable outcome of `run_agent` as seen by a handler: it returns a
result dict (whose `diagnosis` / `proposal` entry may be absent), raises
an `AgentError` carrying a category, or raises some other exception.
`returns none` is a `None` result; `returns (some b)` is a dict whose
outcome entry is truthy iff `b`. -/
inductive AgentBehavior where
  | returns (outcomePresent : Option Bool)
  | raisesAgentError (category message : String)
  | raisesOther (excName message : String)
deriving DecidableEq, Repr

namespace Supervisor

/-- Staleness window of `_dedup_or_recover` (orchestrator.py line 270):
`timedelta(minutes=5)` in seconds. -/
def staleSeconds : Int := 300

/-- The body of the supervisor handler after `_dedup_or_recover` decided
to proceed (orchestrator.py lines 346-414): the unguarded
`RECEIVED → INVESTIGATING` transition, then the try-block around the
agent run.  `tr0` is the effect trace accumulated by the dedup phase.
A failed conditional write inside the try-block is a `ClientError`,
hence caught by `except Exception`, which attempts to mark `FAILED` and
re-raises; the `RECEIVED → INVESTIGATING` write at line 346 is outside
the try-block, so its failure escapes directly. -/
def proceedPhase (st : Store) (now : Int) (agent : AgentBehavior)
    (tr0 : List Effect) : HOut :=
  let c1 := transition_state st now "RECEIVED" "INVESTIGATING" none none
  let tr1 := tr0 ++ [Effect.casWrite "RECEIVED" "INVESTIGATING"]
  if c1.2 = false then
    { store := c1.1, trace := tr1
      result := HResult.raised "ConditionalCheckFailedException" }
  else
    match agent with
    | AgentBehavior.returns res =>
      match res with
      | some true =>
        let tr2 := tr1 ++ [Effect.invokeAgent,
          Effect.putOther "incident-context", Effect.putOther "incident-audit",
          Effect.casWrite "INVESTIGATING" "DIAGNOSED"]
        let c2 := transition_state c1.1 now "INVESTIGATING" "DIAGNOSED" none none
        if c2.2 then
          { store := c2.1, trace := tr2
            result := HResult.ackStatus 200 "DIAGNOSED" none }
        else
          let c3 := transition_state c2.1 now "INVESTIGATING" "FAILED"
            (some "ConditionalCheckFailedException") none
          { store := c3.1
            trace := tr2 ++ [Effect.casWrite "INVESTIGATING" "FAILED"]
            result := HResult.raised "ConditionalCheckFailedException" }
      | _ =>
        let tr2 := tr1 ++ [Effect.invokeAgent,
          Effect.casWrite "INVESTIGATING" "FAILED"]
        let c2 := transition_state c1.1 now "INVESTIGATING" "FAILED"
          (some "Agent produced no diagnosis") none
        if c2.2 then
          { store := c2.1, trace := tr2
            result := HResult.ackStatus 200 "FAILED" none }
        else
          let c3 := transition_state c2.1 now "INVESTIGATING" "FAILED"
            (some "ConditionalCheckFailedException") none
          { store := c3.1
            trace := tr2 ++ [Effect.casWrite "INVESTIGATING" "FAILED"]
            result := HResult.raised "ConditionalCheckFailedException" }
    | AgentBehavior.raisesAgentError cat msg =>
      let c2 := transition_state c1.1 now "INVESTIGATING" "FAILED"
        (some msg) (some cat)
      { store := c2.1
        trace := tr1 ++ [Effect.invokeAgent,
          Effect.casWrite "INVESTIGATING" "FAILED"]
        result := HResult.ackStatus 200 "FAILED" (some cat) }
    | AgentBehavior.raisesOther excName msg =>
      let c2 := transition_state c1.1 now "INVESTIGATING" "FAILED"
        (some msg) none
      { store := c2.1
        trace := tr1 ++ [Effect.invokeAgent,
          Effect.casWrite "INVESTIGATING" "FAILED"]
        result := HResult.raised excName }

/-- The supervisor (Intake) Lambda handler (orchestrator.py lines
325-414), over the parsed triggering event.  `freshId` abstracts the
`uuid4` suffix of the fallback id of the malformed-payload path; the
`Store` argument is the record stored under the id the run derives (for
the malformed path, the record under the fresh fallback id, `none` for
a fresh uuid).  Dedup / crash recovery follows `_dedup_or_recover`
(lines 259-279): absent → create and proceed; `RECEIVED` → proceed;
stale `INVESTIGATING` → conditional reset to `RECEIVED` and proceed;
anything else → skip with the plain body `"already handled"`. -/
def handler (msg : IncidentMsg) (st : Store) (now : Int)
    (agent : AgentBehavior) : HOut :=
  match msg.lambdaName, msg.timestamp with
  | some _, some _ =>
    match st with
    | none =>
      proceedPhase (some (initialRecord now)) now agent [Effect.putIfAbsent]
    | some r =>
      if r.status = "RECEIVED" then
        proceedPhase st now agent []
      else if r.status = "INVESTIGATING" then
        if r.updatedAt < now - staleSeconds then
          let c := transition_state st now "INVESTIGATING" "RECEIVED" none none
          if c.2 then
            proceedPhase c.1 now agent [Effect.casWrite "INVESTIGATING" "RECEIVED"]
          else
            { store := c.1
              trace := [Effect.casWrite "INVESTIGATING" "RECEIVED"]
              result := HResult.raised "ConditionalCheckFailedException" }
        else
          { store := st, trace := [], result := HResult.ackText 200 "already handled" }
      else
        { store := st, trace := [], result := HResult.ackText 200 "already handled" }
  | _, _ =>
    let missingKey :=
      match msg.lambdaName with
      | none => "lambda_name"
      | some _ => "timestamp"
    match st with
    | none =>
      let c := transition_state (some (initialRecord now)) now "RECEIVED" "FAILED"
        (some ("Malformed SNS payload: missing " ++ missingKey)) none
      { store := c.1
        trace := [Effect.putIfAbsent, Effect.casWrite "RECEIVED" "FAILED"]
        result := HResult.ackStatus 200 "FAILED" none }
    | some _ =>
      { store := st, trace := [Effect.putIfAbsent]
        result := HResult.raised "ConditionalCheckFailedException" }

end Supervisor

/-- The parsed resolver handoff payload: `payload.get("incident_id")`
and `payload.get("diagnosis")`; `none` covers both an absent key and a
falsy value (the handler tests truthiness). -/
structure ResolverPayload where
  incidentId : Option String
  diagnosis : Option String
deriving DecidableEq, Repr

namespace Resolver

/-- The resolver (Resolution) Lambda handler (resolver/handler.py lines
116-196).  Note the source performs *no* status transition before
invoking the agent (the comment at line 127 notwithstanding): the
record is expected to already be in `RESOLVING`.  On a returned result
it always stores the audit record first; with a proposal it stores the
proposal enrichment and conditionally writes `RESOLVING → PROPOSED`,
without one it conditionally writes `RESOLVING → PROPOSAL_FAILED`.  An
`AgentError` is acknowledged with `PROPOSAL_FAILED`; any other
exception (including a failed conditional write inside the try-block)
is re-raised after a best-effort `RESOLVING → PROPOSAL_FAILED` mark. -/
def handler (payload : ResolverPayload) (st : Store) (now : Int)
    (agent : AgentBehavior) : HOut :=
  match payload.incidentId, payload.diagnosis with
  | some _, some _ =>
    match agent with
    | AgentBehavior.returns res =>
      match res.bind (fun b => if b then some true else none) with
      | some _ =>
        let tr := [Effect.invokeAgent, Effect.putOther "incident-audit",
          Effect.putOther "proposal", Effect.casWrite "RESOLVING" "PROPOSED"]
        let c1 := transition_state st now "RESOLVING" "PROPOSED" none none
        if c1.2 then
          { store := c1.1, trace := tr
            result := HResult.ackStatus 200 "PROPOSED" none }
        else
          let c2 := transition_state c1.1 now "RESOLVING" "PROPOSAL_FAILED"
            (some "ConditionalCheckFailedException") none
          { store := c2.1
            trace := tr ++ [Effect.casWrite "RESOLVING" "PROPOSAL_FAILED"]
            result := HResult.raised "ConditionalCheckFailedException" }
      | none =>
        let tr := [Effect.invokeAgent, Effect.putOther "incident-audit",
          Effect.casWrite "RESOLVING" "PROPOSAL_FAILED"]
        let c1 := transition_state st now "RESOLVING" "PROPOSAL_FAILED"
          (some "Agent produced no proposal") none
        if c1.2 then
          { store := c1.1, trace := tr
            result := HResult.ackStatus 200 "PROPOSAL_FAILED" none }
        else
          let c2 := transition_state c1.1 now "RESOLVING" "PROPOSAL_FAILED"
            (some "ConditionalCheckFailedException") none
          { store := c2.1
            trace := tr ++ [Effect.casWrite "RESOLVING" "PROPOSAL_FAILED"]
            result := HResult.raised "ConditionalCheckFailedException" }
    | AgentBehavior.raisesAgentError cat msg =>
      let c1 := transition_state st now "RESOLVING" "PROPOSAL_FAILED"
        (some msg) (some cat)
      { store := c1.1
        trace := [Effect.invokeAgent, Effect.casWrite "RESOLVING" "PROPOSAL_FAILED"]
        result := HResult.ackStatus 200 "PROPOSAL_FAILED" (some cat) }
    | AgentBehavior.raisesOther excName msg =>
      let c1 := transition_state st now "RESOLVING" "PROPOSAL_FAILED"
        (some msg) none
      { store := c1.1
        trace := [Effect.invokeAgent, Effect.casWrite "RESOLVING" "PROPOSAL_FAILED"]
        result := HResult.raised excName }
  | _, _ =>
    { store := st, trace := [], result := HResult.ackError 200 "malformed payload" }

end Resolver

namespace Watchdog

/-- watchdog/handler.py constants: thresholds in seconds and the retry
bound. -/
def staleSeconds : Int := 600

def retrySeconds : Int := 300

def MAX_RETRIES : Nat := 2

/-- `transition_to_failed` (watchdog/handler.py lines 46-67): CAS
`INVESTIGATING → FAILED` with reason `"stale watchdog timeout"`; a
`ConditionalCheckFailedException` is caught and reported as `false`. -/
def transition_to_failed (st : Store) (now : Int) : Store × Bool :=
  match st with
  | none => (st, false)
  | some r =>
    if r.status = "INVESTIGATING" then
      (some { r with status := "FAILED", updatedAt := now,
                     errorReason := some "stale watchdog timeout" }, true)
    else (st, false)

/-- `retry_proposal` (watchdog/handler.py lines 84-149) on the record
`st`, where `itemRc` is the `retry_count` the caller read from the
scanned item.  Returns the new store, the effect trace, and the `True
if retried` result.  Both conditional writes catch
`ConditionalCheckFailedException`; only a successful retry CAS is
followed by exactly one SNS publish of the handoff message. -/
def retry_proposal (st : Store) (itemRc : Nat) (now : Int) :
    Store × List Effect × Bool :=
  if MAX_RETRIES ≤ itemRc then
    match st with
    | some r =>
      if r.status = "PROPOSAL_FAILED" then
        (some { r with status := "FAILED", updatedAt := now,
                       errorReason := some ("max retries (2) " ++ "exhausted") },
         [Effect.casWrite "PROPOSAL_FAILED" "FAILED"], false)
      else (st, [Effect.casWrite "PROPOSAL_FAILED" "FAILED"], false)
    | none => (st, [Effect.casWrite "PROPOSAL_FAILED" "FAILED"], false)
  else
    match st with
    | some r =>
      if r.status = "PROPOSAL_FAILED" then
        (some { r with status := "RESOLVING", updatedAt := now,
                       retryCount := itemRc + 1 },
         [Effect.casWrite "PROPOSAL_FAILED" "RESOLVING", Effect.publish], true)
      else (st, [Effect.casWrite "PROPOSAL_FAILED" "RESOLVING"], false)
    | none => (st, [Effect.casWrite "PROPOSAL_FAILED" "RESOLVING"], false)

/-- The watchdog Lambda handler (watchdog/handler.py lines 152-173) on
a single-record store: pass 1 sweeps stale `INVESTIGATING` records
(older than 10 min) to `FAILED`; pass 2 re-scans and, for
`PROPOSAL_FAILED` records older than 5 min, applies `retry_proposal`
with the retry count read from the scanned item. -/
def handler (st : Store) (now : Int) : Store × List Effect :=
  let p1 :=
    match st with
    | some r =>
      if r.status = "INVESTIGATING" ∧ r.updatedAt < now - staleSeconds then
        let c := transition_to_failed st now
        (c.1, [Effect.casWrite "INVESTIGATING" "FAILED"])
      else (st, [])
    | none => (st, [])
  let p2 :=
    match p1.1 with
    | some r =>
      if r.status = "PROPOSAL_FAILED" ∧ r.updatedAt < now - retrySeconds then
        let c := retry_proposal p1.1 r.retryCount now
        (c.1, c.2.1)
      else (p1.1, [])
    | none => (p1.1, [])
  (p2.1, p1.2 ++ p2.2)

end Watchdog

/-- A step acting on one incident record: a watchdog invocation at some
time, or one `transition_state` conditional write issued by the
supervisor or resolver (none of which touches `retry_count`).  This is
the universe over which the retry-bound claim quantifies. -/
inductive WStep where
  | wd (now : Int)
  | tr (fromStatus toStatus : String) (now : Int)
deriving DecidableEq, Repr

/-- One step of the per-record system. -/
def stepStore (st : Store) : WStep → Store × List Effect
  | WStep.wd now => Watchdog.handler st now
  | WStep.tr f t now =>
    ((transition_state st now f t none none).1, [Effect.casWrite f t])

/-- Run a sequence of steps, accumulating the effect trace. -/
def runSteps (st : Store) : List WStep → Store × List Effect
  | [] => (st, [])
  | s :: rest =>
    let c := stepStore st s
    let r := runSteps c.1 rest
    (r.1, c.2 ++ r.2)

/-- Number of SNS handoff publishes in a trace. -/
def publishCount (tr : List Effect) : Nat :=
  (tr.filter (fun e => e = Effect.publish)).length

/-- Retry count stored for the record (0 when absent, matching the
watchdog reading a missing attribute as 0). -/
def rcOf (st : Store) : Nat :=
  match st with
  | none => 0
  | some r => r.retryCount

/-! ## Evidence bundles and context truncation

The evidence bundle (`context` in orchestrator.py) is a JSON object;
`estimate_tokens(data) = len(json.dumps(data, default=str)) // 4`.  We
model JSON values and compute the length of their `json.dumps`
serialisation arithmetically (`json.dumps` uses the separators `", "`
and `": "`), assuming strings contain no characters that `json.dumps`
escapes.  Python dicts preserve insertion order, and assignment to an
existing key keeps its position, which `jSetKey` mirrors (every
assignment the truncation passes perform is to an existing key). -/

inductive Json where
  | null : Json
  | bool (b : Bool) : Json
  | num (n : Int) : Json
  | str (s : String) : Json
  | arr (elems : List Json) : Json
  | obj (fields : List (String × Json)) : Json

mutual

/-- Length of `json.dumps` of a value (escape-free strings). -/
def dumpLen : Json → Nat
  | Json.null => 4
  | Json.bool b => if b then 4 else 5
  | Json.num n => (toString n).length
  | Json.str s => s.length + 2
  | Json.arr es => if es.isEmpty then 2 else dumpLenArr es
  | Json.obj fs => if fs.isEmpty then 2 else dumpLenObj fs

/-- Each array element contributes its length plus 2 (the `", "`
separator, or the surrounding brackets for the last element). -/
def dumpLenArr : List Json → Nat
  | [] => 0
  | v :: rest => dumpLen v + 2 + dumpLenArr rest

/-- Each object field contributes the quoted key, `": "`, the value and
the separator/brackets: `len key + 6 + len value`. -/
def dumpLenObj : List (String × Json) → Nat
  | [] => 0
  | kv :: rest => kv.1.length + dumpLen kv.2 + 6 + dumpLenObj rest

end

/-- `estimate_tokens` (orchestrator.py line 108-109). -/
def estimate_tokens (data : Json) : Nat := dumpLen data / 4

/-- Ordered-dict lookup. -/
def jLookup : List (String × Json) → String → Option Json
  | [], _ => none
  | kv :: rest, key => if kv.1 = key then some kv.2 else jLookup rest key

/-- Ordered-dict assignment to an existing key (keeps its position; a
missing key leaves the dict unchanged — all uses assign present keys). -/
def jSetKey : List (String × Json) → String → Json → List (String × Json)
  | [], _, _ => []
  | kv :: rest, key, nv =>
    if kv.1 = key then (kv.1, nv) :: rest else kv :: jSetKey rest key nv

/-- The context with its `tools.cloudwatch_logs.events` list replaced
by `es` (the in-place list mutation of `_drop_oldest_logs`, expressed
functionally). -/
def logsRebuild (ctxFs toolFs logFs : List (String × Json)) (es : List Json) : Json :=
  Json.obj (jSetKey ctxFs "tools" (Json.obj (jSetKey toolFs "cloudwatch_logs"
    (Json.obj (jSetKey logFs "events" (Json.arr es))))))

/-- The `while current > budget and logs_data["events"]` pop loop of
`_drop_oldest_logs`: `rebuild es` is the whole context with the events
list replaced by `es`, so `estimate_tokens (rebuild es)` is the
`current` recomputed after each pop. -/
def dropLoop (rebuild : List Json → Json) (budget : Int) : List Json → List Json
  | [] => []
  | e :: rest =>
    if (estimate_tokens (rebuild (e :: rest)) : Int) ≤ budget then e :: rest
    else dropLoop rebuild budget rest

/-- `_drop_oldest_logs` (orchestrator.py lines 112-133).  Returns the
new context, whether the pass reported details, and the number of
events dropped.  The source checks that `tools` holds a
`cloudwatch_logs` dict with an `events` key before looking at the
budget; a non-list `events` value would make the source raise, so it is
modelled (unreachably for gathered bundles) as leaving the context
unchanged. -/
def drop_oldest_logs (context : Json) (budget : Int) : Json × Bool × Nat :=
  match context with
  | Json.obj ctxFs =>
    match jLookup ctxFs "tools" with
    | some (Json.obj toolFs) =>
      match jLookup toolFs "cloudwatch_logs" with
      | some (Json.obj logFs) =>
        match jLookup logFs "events" with
        | some (Json.arr es) =>
          if (estimate_tokens context : Int) ≤ budget then (context, false, 0)
          else
            let es2 := dropLoop (logsRebuild ctxFs toolFs logFs) budget es
            (logsRebuild ctxFs toolFs logFs es2, true, es.length - es2.length)
        | some _ => (context, false, 0)
        | none => (context, false, 0)
      | some _ => (context, false, 0)
      | none => (context, false, 0)
    | _ => (context, false, 0)
  | _ => (context, false, 0)

/-- `s.get("Sid", "unnamed")` for one policy statement (statements are
dicts in any bundle the source can process without raising). -/
def sidOf (s : Json) : Json :=
  match s with
  | Json.obj fs => (jLookup fs "Sid").getD (Json.str "unnamed")
  | _ => Json.str "unnamed"

/-- Replace one inline policy document by its Sid list when it is a
dict with a `Statement` list (a non-list `Statement` would make the
source raise; modelled as unchanged). -/
def trimPolicy (doc : Json) : Json :=
  match doc with
  | Json.obj docFs =>
    match jLookup docFs "Statement" with
    | some (Json.arr ss) => Json.obj [("StatementSids", Json.arr (ss.map sidOf))]
    | some _ => doc
    | none => doc
  | _ => doc

/-- `_trim_iam_to_sids` (orchestrator.py lines 136-156): when over
budget, every inline policy document with a `Statement` key is replaced
by `{"StatementSids": [...]}`; the `trimmed` detail is reported even if
no document changed. -/
def trim_iam_to_sids (context : Json) (budget : Int) : Json × Bool :=
  match context with
  | Json.obj ctxFs =>
    match jLookup ctxFs "tools" with
    | some (Json.obj toolFs) =>
      match jLookup toolFs "iam_policy" with
      | some (Json.obj iamFs) =>
        match jLookup iamFs "inline_policies" with
        | some (Json.obj polFs) =>
          if (estimate_tokens context : Int) ≤ budget then (context, false)
          else
            (Json.obj (jSetKey ctxFs "tools" (Json.obj (jSetKey toolFs "iam_policy"
              (Json.obj (jSetKey iamFs "inline_policies"
                (Json.obj (polFs.map (fun kv => (kv.1, trimPolicy kv.2))))))))), true)
        | some _ => (context, false)
        | none => (context, false)
      | some _ => (context, false)
      | none => (context, false)
    | _ => (context, false)
  | _ => (context, false)

/-- `_drop_lambda_config` (orchestrator.py lines 159-172): when over
budget and `lambda_config` is present (any value), replace it by
`{"dropped": true}`. -/
def drop_lambda_config (context : Json) (budget : Int) : Json × Bool :=
  match context with
  | Json.obj ctxFs =>
    match jLookup ctxFs "tools" with
    | some (Json.obj toolFs) =>
      match jLookup toolFs "lambda_config" with
      | some _ =>
        if (estimate_tokens context : Int) ≤ budget then (context, false)
        else
          (Json.obj (jSetKey ctxFs "tools" (Json.obj (jSetKey toolFs "lambda_config"
            (Json.obj [("dropped", Json.bool true)])))), true)
      | none => (context, false)
    | _ => (context, false)
  | _ => (context, false)

/-- Which truncation details `truncate_to_budget` returned. -/
inductive TruncOutcome where
  | skipped
  | noTruncation
  | applied (logs : Bool) (iam : Bool) (config : Bool) (eventsDropped : Nat)
deriving DecidableEq, Repr

/-- `truncate_to_budget` (orchestrator.py lines 175-187): a
non-positive budget disables truncation; an in-budget bundle is
returned unchanged; otherwise the three passes run in order, each
re-checking the budget. -/
def truncate_to_budget (context : Json) (budget : Int) : Json × TruncOutcome :=
  if budget ≤ 0 then (context, TruncOutcome.skipped)
  else if (estimate_tokens context : Int) ≤ budget then (context, TruncOutcome.noTruncation)
  else
    let s1 := drop_oldest_logs context budget
    let s2 := trim_iam_to_sids s1.1 budget
    let s3 := drop_lambda_config s2.1 budget
    (s3.1, TruncOutcome.applied s1.2.1 s2.2 s3.2 s1.2.2)

/-! ## Exception classification and the call-level retry loop

`Exc` models the exception values distinguishable by the two
`classify_error` implementations (supervisor/agent.py lines 118-140 and
shared/agent_utils.py lines 27-50): Python exception groups (always
non-empty, so modelled by their first sub-exception plus a message),
timeout errors, connection/OS errors, the McpInitError class of the
supervisor module, the distinct class of the resolver module with the same
name, botocore `ClientError`s with their error code, and any other
exception.  `str(exc)` is abstracted as the `msg` component. -/

inductive Exc where
  | excGroup (first : Exc) (msg : String)
  | timeout (msg : String)
  | connOrOs (msg : String)
  | mcpInitSup (msg : String)
  | mcpInitRes (msg : String)
  | clientError (code : String) (msg : String)
  | otherExc (msg : String)
deriving DecidableEq, Repr

/-- The `AgentError(category, message)` value a classifier produces. -/
structure AgentError where
  category : String
  message : String
deriving DecidableEq, Repr

/-- `classify_error` of supervisor/agent.py: the `McpInitError` arm is
an `isinstance` check against the own class of the supervisor module,
so the class of the same name in the resolver module falls through to the final
`unknown` arm. -/
def supervisorClassify : Exc → AgentError
  | Exc.excGroup first _ => supervisorClassify first
  | Exc.timeout m => { category := "mcp_connection", message := "Timeout: " ++ m }
  | Exc.connOrOs m => { category := "mcp_connection", message := m }
  | Exc.mcpInitSup m => { category := "mcp_init", message := m }
  | Exc.mcpInitRes m => { category := "unknown", message := m }
  | Exc.clientError code m =>
    if code = "AccessDeniedException" ∨ code = "UnauthorizedException" then
      { category := "bedrock_auth", message := m }
    else if code = "ThrottlingException" ∨ code = "ServiceUnavailableException"
        ∨ code = "ModelTimeoutException" then
      { category := "bedrock_transient", message := m }
    else { category := "unknown", message := m }
  | Exc.otherExc m => { category := "unknown", message := m }

/-- `classify_error` of shared/agent_utils.py: the `McpInitError` arm
matches by class *name* (`type(exc).__name__ == "McpInitError"`), so
the classes of that name in both modules are classified `mcp_init`. -/
def sharedClassify : Exc → AgentError
  | Exc.excGroup first _ => sharedClassify first
  | Exc.timeout m => { category := "mcp_connection", message := "Timeout: " ++ m }
  | Exc.connOrOs m => { category := "mcp_connection", message := m }
  | Exc.mcpInitSup m => { category := "mcp_init", message := m }
  | Exc.mcpInitRes m => { category := "mcp_init", message := m }
  | Exc.clientError code m =>
    if code = "AccessDeniedException" ∨ code = "UnauthorizedException" then
      { category := "bedrock_auth", message := m }
    else if code = "ThrottlingException" ∨ code = "ServiceUnavailableException"
        ∨ code = "ModelTimeoutException" then
      { category := "bedrock_transient", message := m }
    else { category := "unknown", message := m }
  | Exc.otherExc m => { category := "unknown", message := m }

/-- Whether the classification of an exception bottoms out (through
first-of-group recursion) at the resolver-module `McpInitError`. -/
def leafIsResolverInit : Exc → Bool
  | Exc.excGroup first _ => leafIsResolverInit first
  | Exc.mcpInitRes _ => true
  | _ => false

/-- What one `_execute_agent` attempt does, as observed by the
`run_agent` retry loop. -/
inductive AttemptOutcome where
  | ok
  | agentErr (category message : String)
  | exc (e : Exc)
deriving DecidableEq, Repr

/-- The observable outcome of a `run_agent` call: whether it returned,
the `AgentError` it raised otherwise, how many `_execute_agent` calls
were attempted, and the `asyncio.sleep` backoff delays taken. -/
structure RunResult where
  returned : Bool
  raisedErr : Option AgentError
  calls : Nat
  sleeps : List Nat
deriving DecidableEq, Repr

/-- `PERMANENT_CATEGORIES` (both agents). -/
def PERMANENT_CATEGORIES : List String := ["bedrock_auth", "unknown"]

/-- The `for attempt in range(max_retries)` body shared by
supervisor/agent.py `run_agent` (lines 394-418) and resolver/agent.py
`run_agent` (lines 372-399): an `AgentError` re-raises immediately; any
other exception is classified, permanent categories re-raise
immediately, transient ones record the error and — unless this was the
last attempt — sleep `2 ** attempt` before retrying; exhausted attempts
raise the last error. -/
def runAgentGo (classify : Exc → AgentError) :
    List AttemptOutcome → Nat → Option AgentError → Nat → List Nat → RunResult
  | [], _, last, calls, sleeps =>
    { returned := false, raisedErr := last, calls := calls, sleeps := sleeps }
  | o :: rest, idx, _, calls, sleeps =>
    match o with
    | AttemptOutcome.ok =>
      { returned := true, raisedErr := none, calls := calls + 1, sleeps := sleeps }
    | AttemptOutcome.agentErr c m =>
      { returned := false, raisedErr := some { category := c, message := m },
        calls := calls + 1, sleeps := sleeps }
    | AttemptOutcome.exc e =>
      let ae := classify e
      if PERMANENT_CATEGORIES.contains ae.category then
        { returned := false, raisedErr := some ae, calls := calls + 1, sleeps := sleeps }
      else
        runAgentGo classify rest (idx + 1) (some ae) (calls + 1)
          (if rest.isEmpty then sleeps else sleeps ++ [2 ^ idx])

/-- `run_agent` with `max_retries` attempts whose outcomes are given by
`attempts` (`attempts.length = max_retries = 2` in both agents). -/
def run_agent (classify : Exc → AgentError) (attempts : List AttemptOutcome) :
    RunResult :=
  runAgentGo classify attempts 0 none 0 []

/-! ## Reasoning-loop routing

`route_after_reason` of supervisor/agent.py (lines 266-274) and
resolver/agent.py (lines 219-233), plus the LangGraph wiring of
`build_graph` in each.  The `tool_calls` attribute of the last message is
`none` when absent; plain text is an empty (or absent) tool-call
list. -/

/-- The supervisor router: plain text always routes to `"end"`. -/
def sup_route_after_reason (lastToolCalls : Option (List String)) : String :=
  match lastToolCalls with
  | none => "end"
  | some tcs =>
    if tcs.isEmpty then "end"
    else if tcs.contains "submit_diagnosis" then "submit"
    else "tools"

/-- The routing-relevant resolver state: the tool calls of the last message,
whether `state.get("proposal")` is truthy, and `state.get("_nudged")`. -/
structure ResRouteState where
  lastToolCalls : Option (List String)
  proposalPresent : Bool
  nudged : Bool
deriving DecidableEq, Repr

/-- The resolver router: plain text routes to `"nudge"` exactly when no
proposal has been extracted and no nudge has been sent. -/
def res_route_after_reason (s : ResRouteState) : String :=
  match s.lastToolCalls with
  | none =>
    if ¬ s.proposalPresent ∧ ¬ s.nudged then "nudge" else "end"
  | some tcs =>
    if tcs.isEmpty then
      if ¬ s.proposalPresent ∧ ¬ s.nudged then "nudge" else "end"
    else if tcs.contains "submit_proposal" then "submit"
    else "tools"

/-- The conditional-edge map of the supervisor graph after `agent_reason`
(supervisor/agent.py lines 341-345): it has no nudge target at all. -/
def supervisorRouteMap : List (String × String) :=
  [("tools", "execute_tools"), ("submit", "extract_diagnosis"), ("end", "END")]

/-- The conditional-edge map of the resolver graph after `agent_reason`
(resolver/agent.py lines 310-314). -/
def resolverRouteMap : List (String × String) :=
  [("tools", "execute_tools"), ("submit", "extract_proposal"),
   ("nudge", "nudge_proposal"), ("end", "END")]

/-- The unconditional edges of the resolver graph (resolver/agent.py lines
315-317): after a nudge the loop iterates once more via
`agent_reason`. -/
def resolverGraphEdges : List (String × String) :=
  [("execute_tools", "agent_reason"), ("nudge_proposal", "agent_reason"),
   ("extract_proposal", "END")]

/-- `nudge_proposal` (resolver/agent.py lines 236-248): the injected
directive demanding immediate submission, and the `_nudged` flag it
sets. -/
def nudge_proposal : String × Bool :=
  ("You have gathered enough information. You MUST now call the " ++
   "submit_proposal tool with your remediation proposal. Do not respond " ++
   "with text — call submit_proposal immediately.", true)

end IncidentModel

namespace IncidentModel

/-- The attempted conditional status writes of a trace, as
(expected-from, to) pairs. -/
def casPairs (tr : List Effect) : List (String × String) :=
  tr.filterMap (fun e =>
    match e with
    | Effect.casWrite f t => some (f, t)
    | _ => none)

/-- The edges of the state machine as the claim enumerates them
(§4.1 plus the stale reset and the retry edge, with FAILED reachable
from INVESTIGATING or RESOLVING and PROPOSAL_FAILED from RESOLVING). -/
def claimedEdges : List (String × String) :=
  [("RECEIVED", "INVESTIGATING"), ("INVESTIGATING", "DIAGNOSED"),
   ("DIAGNOSED", "RESOLVING"), ("RESOLVING", "PROPOSED"),
   ("INVESTIGATING", "RECEIVED"), ("PROPOSAL_FAILED", "RESOLVING"),
   ("INVESTIGATING", "FAILED"), ("RESOLVING", "FAILED"),
   ("RESOLVING", "PROPOSAL_FAILED")]

/-- The edges the code actually writes: the claimed ones plus the
malformed-payload edge `RECEIVED → FAILED` (orchestrator.py line 336)
and the retries-exhausted edge `PROPOSAL_FAILED → FAILED`
(watchdog/handler.py line 93). -/
def codeEdges : List (String × String) :=
  claimedEdges ++ [("RECEIVED", "FAILED"), ("PROPOSAL_FAILED", "FAILED")]

/-- A 2xx acknowledgment (every source ack uses statusCode 200). -/
def isAck2xx : HResult → Bool
  | HResult.ackStatus c _ _ => c == 200
  | HResult.ackText c _ => c == 200
  | HResult.ackError c _ => c == 200
  | HResult.raised _ => false

end IncidentModel

namespace IncidentModel

/-- Boolean check that every attempted conditional write in a trace is
a code edge. -/
def traceEdgesOk (tr : List Effect) : Bool :=
  tr.all (fun e =>
    match e with
    | Effect.casWrite f t => codeEdges.contains (f, t)
    | _ => true)

/-- Bridge from the Boolean check to membership of the edge list. -/
theorem casPairs_sub_of_ok {tr : List Effect} (h : traceEdgesOk tr = true)
    {p : String × String} (hp : p ∈ casPairs tr) : p ∈ codeEdges := by
  induction tr with
  | nil => simp [casPairs] at hp
  | cons e rest ih =>
    simp only [traceEdgesOk, List.all_cons, Bool.and_eq_true] at h
    rcases e with _ | ⟨f, t⟩ | _ | _ | _ <;>
      simp only [casPairs, List.filterMap_cons] at hp ih <;>
      try exact ih h.2 hp
    rcases (List.mem_cons).mp hp with rfl | hp2
    · have := h.1
      simpa using List.mem_of_elem_eq_true this
    · exact ih h.2 hp2

/-- Helper: the supervisor proceed-phase only adds code-edge writes. -/
theorem proceedPhase_ok (st : Store) (now : Int) (agent : AgentBehavior)
    (tr0 : List Effect) (h : traceEdgesOk tr0 = true) :
    traceEdgesOk (Supervisor.proceedPhase st now agent tr0).trace = true := by
  rcases agent with res | ⟨c, m⟩ | ⟨e, m⟩
  · rcases res with _ | b
    · simp only [Supervisor.proceedPhase]
      repeat' split
      all_goals simp_all [traceEdgesOk, List.all_append]
      all_goals decide
    · rcases b with _ | _ <;>
        · simp only [Supervisor.proceedPhase]
          repeat' split
          all_goals simp_all [traceEdgesOk, List.all_append]
          all_goals decide
  · simp only [Supervisor.proceedPhase]
    repeat' split
    all_goals simp_all [traceEdgesOk, List.all_append]
    all_goals decide
  · simp only [Supervisor.proceedPhase]
    repeat' split
    all_goals simp_all [traceEdgesOk, List.all_append]
    all_goals decide

end IncidentModel

namespace IncidentModel

/-- Helper: every supervisor-handler run only attempts code-edge
status writes. -/
theorem supervisor_trace_ok (msg : IncidentMsg) (st : Store) (now : Int)
    (agent : AgentBehavior) :
    traceEdgesOk (Supervisor.handler msg st now agent).trace = true := by
  rcases msg with ⟨ln, ts⟩
  rcases ln with _ | ln <;> rcases ts with _ | ts <;> rcases st with _ | r <;>
    simp only [Supervisor.handler] <;> repeat' split
  all_goals
    first
      | rfl
      | exact proceedPhase_ok _ _ _ _ (by rfl)

/-- Helper: every resolver-handler run only attempts code-edge status
writes. -/
theorem resolver_trace_ok (payload : ResolverPayload) (st : Store) (now : Int)
    (agent : AgentBehavior) :
    traceEdgesOk (Resolver.handler payload st now agent).trace = true := by
  rcases payload with ⟨i, d⟩
  rcases i with _ | i <;> rcases d with _ | d <;>
    rcases agent with res | ⟨c, m⟩ | ⟨e, m⟩ <;>
    simp only [Resolver.handler] <;> repeat' split
  all_goals rfl

/-- Helper: every watchdog run only attempts code-edge status writes. -/
theorem watchdog_trace_ok (st : Store) (now : Int) :
    traceEdgesOk (Watchdog.handler st now).2 = true := by
  rcases st with _ | r <;>
    simp only [Watchdog.handler, Watchdog.retry_proposal, Watchdog.transition_to_failed] <;>
    repeat' split
  all_goals rfl

end IncidentModel

namespace IncidentModel

/-- C1 counterexample: the supervisor handler run on a malformed
triggering event (missing `lambda_name`) against a fresh store attempts
the conditional status write `RECEIVED → FAILED`, which is not one of
the edges the claim enumerates (the claim allows `FAILED` only with
expected prior status `INVESTIGATING` or `RESOLVING`). -/
theorem c1_counterexample :
    casPairs (Supervisor.handler ⟨none, some "T1"⟩ none 1000
      (AgentBehavior.returns none)).trace = [("RECEIVED", "FAILED")] ∧
    ("RECEIVED", "FAILED") ∉ claimedEdges := by decide

/-- C1 amended: every conditional status write attempted by the Intake
handler, the Resolution handler, or the Watchdog uses an edge of the
state machine *extended with* the malformed-payload edge
`RECEIVED → FAILED` and the retries-exhausted edge
`PROPOSAL_FAILED → FAILED`. -/
theorem c1_amended_all_writes_are_code_edges
    (msg : IncidentMsg) (st : Store) (now : Int) (agent : AgentBehavior)
    (payload : ResolverPayload) (st2 : Store) (now2 : Int) (agent2 : AgentBehavior)
    (st3 : Store) (now3 : Int) (p : String × String) :
    (p ∈ casPairs (Supervisor.handler msg st now agent).trace → p ∈ codeEdges) ∧
    (p ∈ casPairs (Resolver.handler payload st2 now2 agent2).trace → p ∈ codeEdges) ∧
    (p ∈ casPairs (Watchdog.handler st3 now3).2 → p ∈ codeEdges) :=
  ⟨fun hp => casPairs_sub_of_ok (supervisor_trace_ok msg st now agent) hp,
   fun hp => casPairs_sub_of_ok (resolver_trace_ok payload st2 now2 agent2) hp,
   fun hp => casPairs_sub_of_ok (watchdog_trace_ok st3 now3) hp⟩

/-- C1 witness: the amended theorem applied to the malformed-payload
run, the resolver success run, and a watchdog retry run. -/
theorem c1_amended_witness :
    ("RECEIVED", "FAILED") ∈ codeEdges ∧
    ("RESOLVING", "PROPOSED") ∈ codeEdges ∧
    ("PROPOSAL_FAILED", "RESOLVING") ∈ codeEdges := by
  have h := c1_amended_all_writes_are_code_edges
    ⟨none, some "T1"⟩ none 1000 (AgentBehavior.returns none)
    ⟨some "i", some "d"⟩ (some ⟨"RESOLVING", 0, 0, none, none⟩) 1000
    (AgentBehavior.returns (some true))
    (some ⟨"PROPOSAL_FAILED", 0, 0, none, none⟩) 1000
  have h2 := c1_amended_all_writes_are_code_edges
    ⟨none, some "T1"⟩ none 1000 (AgentBehavior.returns none)
    ⟨some "i", some "d"⟩ (some ⟨"RESOLVING", 0, 0, none, none⟩) 1000
    (AgentBehavior.returns (some true))
    (some ⟨"PROPOSAL_FAILED", 0, 0, none, none⟩) 1000
    ("RESOLVING", "PROPOSED")
  exact ⟨(h ("RECEIVED", "FAILED")).1 (by decide),
    h2.2.1 (by decide),
    (h ("PROPOSAL_FAILED", "RESOLVING")).2.2 (by decide)⟩

/-- C5 confirmed: when the stored record is in any status other than
`RECEIVED` and other than a stale `INVESTIGATING` (its `updated_at` is
within the 5-minute window when it is `INVESTIGATING`), the Intake
handler answers the plain 200 body `"already handled"`, performs no
state-store write (empty effect trace, store unchanged), and a second
invocation on the resulting store behaves identically. -/
theorem c5_intake_already_handled (ln ts : String) (r : Record) (now : Int)
    (agent agent2 : AgentBehavior)
    (hs : r.status ≠ "RECEIVED")
    (hstale : r.status = "INVESTIGATING" → now - Supervisor.staleSeconds ≤ r.updatedAt) :
    Supervisor.handler ⟨some ln, some ts⟩ (some r) now agent =
      { store := some r, trace := [], result := HResult.ackText 200 "already handled" } ∧
    Supervisor.handler ⟨some ln, some ts⟩
        (Supervisor.handler ⟨some ln, some ts⟩ (some r) now agent).store now agent2 =
      { store := some r, trace := [], result := HResult.ackText 200 "already handled" } := by
  have hgen : ∀ ag : AgentBehavior, Supervisor.handler ⟨some ln, some ts⟩ (some r) now ag =
      { store := some r, trace := [], result := HResult.ackText 200 "already handled" } := by
    intro ag
    by_cases hi : r.status = "INVESTIGATING"
    · have hnl : ¬ r.updatedAt < now - Supervisor.staleSeconds := not_lt.mpr (hstale hi)
      simp [Supervisor.handler, hs, hi, hnl]
    · simp [Supervisor.handler, hs, hi]
  refine ⟨hgen agent, ?_⟩
  rw [hgen agent]
  exact hgen agent2

/-- C5 witness: a record in `PROPOSED` observed twice. -/
theorem c5_witness :
    Supervisor.handler ⟨some "data-processor", some "T1"⟩
        (some ⟨"PROPOSED", 500, 0, none, none⟩) 1000 (AgentBehavior.returns none) =
      { store := some ⟨"PROPOSED", 500, 0, none, none⟩, trace := [],
        result := HResult.ackText 200 "already handled" } ∧
    Supervisor.handler ⟨some "data-processor", some "T1"⟩
        (Supervisor.handler ⟨some "data-processor", some "T1"⟩
          (some ⟨"PROPOSED", 500, 0, none, none⟩) 1000 (AgentBehavior.returns none)).store
        1000 (AgentBehavior.returns none) =
      { store := some ⟨"PROPOSED", 500, 0, none, none⟩, trace := [],
        result := HResult.ackText 200 "already handled" } :=
  c5_intake_already_handled "data-processor" "T1" ⟨"PROPOSED", 500, 0, none, none⟩ 1000
    (AgentBehavior.returns none) (AgentBehavior.returns none)
    (by decide) (by decide)

end IncidentModel

namespace IncidentModel

/-- C2 counterexample: on a well-formed handoff message with the record
already in `RESOLVING`, the Resolution handler invokes the reasoning
loop with *no* prior conditional status write at all — in particular no
`DIAGNOSED → RESOLVING` write — refuting the claimed
write-then-invoke order. -/
theorem c2_counterexample :
    casPairs ((Resolver.handler ⟨some "inc-1", some "diag"⟩
        (some ⟨"RESOLVING", 0, 0, none, none⟩) 1000
        (AgentBehavior.returns (some true))).trace.takeWhile
      (fun e => e ≠ Effect.invokeAgent)) = [] ∧
    Effect.invokeAgent ∈ (Resolver.handler ⟨some "inc-1", some "diag"⟩
        (some ⟨"RESOLVING", 0, 0, none, none⟩) 1000
        (AgentBehavior.returns (some true))).trace ∧
    Effect.casWrite "DIAGNOSED" "RESOLVING" ∉ (Resolver.handler
        ⟨some "inc-1", some "diag"⟩ (some ⟨"RESOLVING", 0, 0, none, none⟩) 1000
        (AgentBehavior.returns (some true))).trace := by decide

/-- C2 amended: the Resolution handler performs no conditional status
write before invoking the reasoning loop (the record is expected to be
in `RESOLVING` already); every status write it attempts is
`RESOLVING → PROPOSED` or `RESOLVING → PROPOSAL_FAILED` (never to
`FAILED`); on success it writes `RESOLVING → PROPOSED`, and on a
classified agent failure it writes `RESOLVING → PROPOSAL_FAILED` and
still acknowledges with 200. -/
theorem c2_amended_resolver_contract (st : Store) (now : Int)
    (agent : AgentBehavior) (iid diag : String) (r : Record) (cat m : String)
    (hr : r.status = "RESOLVING") :
    casPairs ((Resolver.handler ⟨some iid, some diag⟩ st now agent).trace.takeWhile
      (fun e => e ≠ Effect.invokeAgent)) = [] ∧
    (∀ p ∈ casPairs (Resolver.handler ⟨some iid, some diag⟩ st now agent).trace,
      p.1 = "RESOLVING" ∧ (p.2 = "PROPOSED" ∨ p.2 = "PROPOSAL_FAILED")) ∧
    Resolver.handler ⟨some iid, some diag⟩ (some r) now
        (AgentBehavior.returns (some true)) =
      { store := some { r with status := "PROPOSED", updatedAt := now },
        trace := [Effect.invokeAgent, Effect.putOther "incident-audit",
          Effect.putOther "proposal", Effect.casWrite "RESOLVING" "PROPOSED"],
        result := HResult.ackStatus 200 "PROPOSED" none } ∧
    Resolver.handler ⟨some iid, some diag⟩ (some r) now
        (AgentBehavior.raisesAgentError cat m) =
      { store := some ⟨"PROPOSAL_FAILED", now, r.retryCount, some (pyTake500 m), some cat⟩,
        trace := [Effect.invokeAgent, Effect.casWrite "RESOLVING" "PROPOSAL_FAILED"],
        result := HResult.ackStatus 200 "PROPOSAL_FAILED" (some cat) } := by
  refine ⟨?_, ?_, ?_, ?_⟩
  · rcases agent with res | ⟨c2, m2⟩ | ⟨e2, m2⟩ <;>
      simp only [Resolver.handler] <;> repeat' split
    all_goals rfl
  · rcases agent with res | ⟨c2, m2⟩ | ⟨e2, m2⟩ <;>
      simp only [Resolver.handler] <;> repeat' split
    all_goals try dsimp only
    all_goals decide
  · simp [Resolver.handler, transition_state, hr]
  · simp [Resolver.handler, transition_state, hr]

/-- C2 witness. -/
theorem c2_amended_witness :
    casPairs ((Resolver.handler ⟨some "inc-1", some "diag"⟩
        (some ⟨"RESOLVING", 0, 0, none, none⟩) 1000
        (AgentBehavior.returns (some false))).trace.takeWhile
      (fun e => e ≠ Effect.invokeAgent)) = [] ∧
    (∀ p ∈ casPairs (Resolver.handler ⟨some "inc-1", some "diag"⟩
        (some ⟨"RESOLVING", 0, 0, none, none⟩) 1000
        (AgentBehavior.returns (some false))).trace,
      p.1 = "RESOLVING" ∧ (p.2 = "PROPOSED" ∨ p.2 = "PROPOSAL_FAILED")) ∧
    Resolver.handler ⟨some "inc-1", some "diag"⟩
        (some ⟨"RESOLVING", 0, 0, none, none⟩) 1000
        (AgentBehavior.returns (some true)) =
      { store := some ⟨"PROPOSED", 1000, 0, none, none⟩,
        trace := [Effect.invokeAgent, Effect.putOther "incident-audit",
          Effect.putOther "proposal", Effect.casWrite "RESOLVING" "PROPOSED"],
        result := HResult.ackStatus 200 "PROPOSED" none } ∧
    Resolver.handler ⟨some "inc-1", some "diag"⟩
        (some ⟨"RESOLVING", 0, 0, none, none⟩) 1000
        (AgentBehavior.raisesAgentError "mcp_connection" "MCP unreachable") =
      { store := some ⟨"PROPOSAL_FAILED", 1000, 0,
          some (pyTake500 "MCP unreachable"), some "mcp_connection"⟩,
        trace := [Effect.invokeAgent, Effect.casWrite "RESOLVING" "PROPOSAL_FAILED"],
        result := HResult.ackStatus 200 "PROPOSAL_FAILED" (some "mcp_connection") } :=
  c2_amended_resolver_contract (some ⟨"RESOLVING", 0, 0, none, none⟩) 1000
    (AgentBehavior.returns (some false)) "inc-1" "diag"
    ⟨"RESOLVING", 0, 0, none, none⟩ "mcp_connection" "MCP unreachable" rfl

end IncidentModel

namespace IncidentModel

/-- Helper: results of the supervisor proceed-phase on a `RECEIVED`
record: returned results and `AgentError`s are acknowledged with 200,
any other exception escapes. -/
theorem proceedPhase_results (r : Record) (now : Int) (tr0 : List Effect)
    (hr : r.status = "RECEIVED") :
    (∀ res : Option Bool, isAck2xx (Supervisor.proceedPhase (some r) now
      (AgentBehavior.returns res) tr0).result = true) ∧
    (∀ cat m : String, isAck2xx (Supervisor.proceedPhase (some r) now
      (AgentBehavior.raisesAgentError cat m) tr0).result = true) ∧
    (∀ en em : String, (Supervisor.proceedPhase (some r) now
      (AgentBehavior.raisesOther en em) tr0).result = HResult.raised en) := by
  refine ⟨?_, ?_, ?_⟩
  · intro res
    rcases res with _ | b
    · simp [Supervisor.proceedPhase, transition_state, hr, isAck2xx]
    · rcases b with _ | _ <;>
        simp [Supervisor.proceedPhase, transition_state, hr, isAck2xx]
  · intro cat m
    simp [Supervisor.proceedPhase, transition_state, hr, isAck2xx]
  · intro en em
    simp [Supervisor.proceedPhase, transition_state, hr]

end IncidentModel

namespace IncidentModel

/-- Helper: on a well-formed triggering event every supervisor-handler
run either reduces to the proceed-phase on a `RECEIVED` record or is
the write-free `"already handled"` skip. -/
theorem supervisor_handler_cases (ln ts : String) (st : Store) (now : Int)
    (ag : AgentBehavior) :
    (∃ r2 : Record, r2.status = "RECEIVED" ∧ ∃ tr0 : List Effect,
      Supervisor.handler ⟨some ln, some ts⟩ st now ag =
        Supervisor.proceedPhase (some r2) now ag tr0) ∨
    Supervisor.handler ⟨some ln, some ts⟩ st now ag =
      { store := st, trace := [], result := HResult.ackText 200 "already handled" } := by
  rcases st with _ | r
  · exact Or.inl ⟨initialRecord now, rfl, [Effect.putIfAbsent], rfl⟩
  · by_cases hR : r.status = "RECEIVED"
    · refine Or.inl ⟨r, hR, [], ?_⟩
      simp [Supervisor.handler, hR]
    · by_cases hi : r.status = "INVESTIGATING"
      · by_cases hstale : r.updatedAt < now - Supervisor.staleSeconds
        · refine Or.inl ⟨{ r with status := "RECEIVED", updatedAt := now },
            rfl, [Effect.casWrite "INVESTIGATING" "RECEIVED"], ?_⟩
          simp [Supervisor.handler, hR, hi, hstale, transition_state]
        · exact Or.inr (by simp [Supervisor.handler, hR, hi, hstale])
      · exact Or.inr (by simp [Supervisor.handler, hR, hi])

/-- C3 counterexample: a triggering event whose processing raises an
unclassified exception (`RuntimeError`) makes the Intake handler
re-raise it to the transport instead of returning a 2xx
acknowledgment (the source does `raise` after marking `FAILED`, and its
own test `test_handler_failed_on_exception` expects the raise). -/
theorem c3_counterexample :
    (Supervisor.handler ⟨some "data-processor", some "T1"⟩ none 1000
      (AgentBehavior.raisesOther "RuntimeError" "MCP down")).result =
      HResult.raised "RuntimeError" := by decide

/-- C3 amended: on well-formed messages, the Intake handler returns a
2xx acknowledgment whenever the agent returns a result or raises a
classified `AgentError`, and re-raises only unclassified exceptions
(or, on a duplicate, answers the 2xx skip body); the Resolution handler
behaves the same when the record is in `RESOLVING`, and acknowledges
malformed payloads with a 2xx error body.  Failures are recorded in the
state store, but unexpected exceptions do escape to the transport. -/
theorem c3_amended_ack_discipline (ln ts iid diag : String) (st : Store)
    (now : Int) (res : Option Bool) (cat m en em : String) (r : Record)
    (hr : r.status = "RESOLVING") :
    isAck2xx (Supervisor.handler ⟨some ln, some ts⟩ st now
      (AgentBehavior.returns res)).result = true ∧
    isAck2xx (Supervisor.handler ⟨some ln, some ts⟩ st now
      (AgentBehavior.raisesAgentError cat m)).result = true ∧
    ((Supervisor.handler ⟨some ln, some ts⟩ st now
        (AgentBehavior.raisesOther en em)).result = HResult.raised en ∨
      (Supervisor.handler ⟨some ln, some ts⟩ st now
        (AgentBehavior.raisesOther en em)).result = HResult.ackText 200 "already handled") ∧
    isAck2xx (Resolver.handler ⟨some iid, some diag⟩ (some r) now
      (AgentBehavior.returns res)).result = true ∧
    isAck2xx (Resolver.handler ⟨some iid, some diag⟩ (some r) now
      (AgentBehavior.raisesAgentError cat m)).result = true ∧
    (Resolver.handler ⟨some iid, some diag⟩ (some r) now
      (AgentBehavior.raisesOther en em)).result = HResult.raised en ∧
    isAck2xx (Resolver.handler ⟨none, some diag⟩ st now
      (AgentBehavior.returns res)).result = true := by
  refine ⟨?_, ?_, ?_, ?_, ?_, ?_, ?_⟩
  · rcases supervisor_handler_cases ln ts st now (AgentBehavior.returns res) with
      ⟨r2, hr2, tr0, heq⟩ | heq
    · rw [heq]; exact (proceedPhase_results r2 now tr0 hr2).1 res
    · rw [heq]; rfl
  · rcases supervisor_handler_cases ln ts st now
        (AgentBehavior.raisesAgentError cat m) with ⟨r2, hr2, tr0, heq⟩ | heq
    · rw [heq]; exact (proceedPhase_results r2 now tr0 hr2).2.1 cat m
    · rw [heq]; rfl
  · rcases supervisor_handler_cases ln ts st now
        (AgentBehavior.raisesOther en em) with ⟨r2, hr2, tr0, heq⟩ | heq
    · rw [heq]; exact Or.inl ((proceedPhase_results r2 now tr0 hr2).2.2 en em)
    · rw [heq]; exact Or.inr rfl
  · rcases res with _ | b
    · simp [Resolver.handler, transition_state, hr, isAck2xx]
    · rcases b with _ | _ <;> simp [Resolver.handler, transition_state, hr, isAck2xx]
  · simp [Resolver.handler, transition_state, hr, isAck2xx]
  · simp [Resolver.handler, transition_state, hr]
  · simp [Resolver.handler, isAck2xx]

/-- C3 witness. -/
theorem c3_amended_witness :
    isAck2xx (Supervisor.handler ⟨some "data-processor", some "T1"⟩ none 1000
      (AgentBehavior.returns (some true))).result = true ∧
    isAck2xx (Supervisor.handler ⟨some "data-processor", some "T1"⟩ none 1000
      (AgentBehavior.raisesAgentError "mcp_connection" "timeout")).result = true ∧
    ((Supervisor.handler ⟨some "data-processor", some "T1"⟩ none 1000
        (AgentBehavior.raisesOther "RuntimeError" "boom")).result =
        HResult.raised "RuntimeError" ∨
      (Supervisor.handler ⟨some "data-processor", some "T1"⟩ none 1000
        (AgentBehavior.raisesOther "RuntimeError" "boom")).result =
        HResult.ackText 200 "already handled") ∧
    isAck2xx (Resolver.handler ⟨some "inc-1", some "diag"⟩
      (some ⟨"RESOLVING", 0, 0, none, none⟩) 1000
      (AgentBehavior.returns (some true))).result = true ∧
    isAck2xx (Resolver.handler ⟨some "inc-1", some "diag"⟩
      (some ⟨"RESOLVING", 0, 0, none, none⟩) 1000
      (AgentBehavior.raisesAgentError "mcp_connection" "timeout")).result = true ∧
    (Resolver.handler ⟨some "inc-1", some "diag"⟩
      (some ⟨"RESOLVING", 0, 0, none, none⟩) 1000
      (AgentBehavior.raisesOther "RuntimeError" "boom")).result =
      HResult.raised "RuntimeError" ∧
    isAck2xx (Resolver.handler ⟨none, some "diag"⟩
      (some ⟨"RESOLVING", 0, 0, none, none⟩) 1000
      (AgentBehavior.returns (some true))).result = true :=
  c3_amended_ack_discipline "data-processor" "T1" "inc-1" "diag" none 1000
    (some true) "mcp_connection" "timeout" "RuntimeError" "boom"
    ⟨"RESOLVING", 0, 0, none, none⟩ rfl

end IncidentModel

namespace IncidentModel

/-- C4 counterexample: a duplicate handoff delivery after success (the
record is already `PROPOSED`, so the `RESOLVING → PROPOSED` conditional
write loses) makes the Resolution handler attempt a *further*
conditional write (`RESOLVING → PROPOSAL_FAILED`, inside the generic
exception handler) and then re-raise the precondition failure to its
caller — it neither stops silently nor hides the error. -/
theorem c4_counterexample :
    (Resolver.handler ⟨some "inc-1", some "diag"⟩
      (some ⟨"PROPOSED", 900, 0, none, none⟩) 1000
      (AgentBehavior.returns (some true))).result =
      HResult.raised "ConditionalCheckFailedException" ∧
    (Resolver.handler ⟨some "inc-1", some "diag"⟩
      (some ⟨"PROPOSED", 900, 0, none, none⟩) 1000
      (AgentBehavior.returns (some true))).trace =
      [Effect.invokeAgent, Effect.putOther "incident-audit",
       Effect.putOther "proposal", Effect.casWrite "RESOLVING" "PROPOSED",
       Effect.casWrite "RESOLVING" "PROPOSAL_FAILED"] := by decide

/-- C4 amended: the conditional writes of the Watchdog do treat a lost
race as a benign skip (record untouched, nothing published, `false`
returned, no exception), and the failure-marking write of the
Resolution handler swallows its loss (the 200 acknowledgment still
goes out); but a lost race on the success-path write of the Resolution
handler is caught by
the generic exception handler, which attempts one more conditional
write and re-raises the precondition failure to the caller. -/
theorem c4_amended_cas_loss_behavior (r : Record) (itemRc : Nat) (now : Int)
    (iid diag cat m : String)
    (h1 : r.status ≠ "INVESTIGATING")
    (h2 : r.status ≠ "PROPOSAL_FAILED")
    (h3 : r.status ≠ "RESOLVING") :
    Watchdog.transition_to_failed (some r) now = (some r, false) ∧
    ((Watchdog.retry_proposal (some r) itemRc now).1 = some r ∧
      publishCount (Watchdog.retry_proposal (some r) itemRc now).2.1 = 0 ∧
      (Watchdog.retry_proposal (some r) itemRc now).2.2 = false) ∧
    (Resolver.handler ⟨some iid, some diag⟩ (some r) now
      (AgentBehavior.returns (some true))).result =
      HResult.raised "ConditionalCheckFailedException" ∧
    Resolver.handler ⟨some iid, some diag⟩ (some r) now
        (AgentBehavior.raisesAgentError cat m) =
      { store := some r,
        trace := [Effect.invokeAgent, Effect.casWrite "RESOLVING" "PROPOSAL_FAILED"],
        result := HResult.ackStatus 200 "PROPOSAL_FAILED" (some cat) } := by
  refine ⟨?_, ?_, ?_, ?_⟩
  · simp [Watchdog.transition_to_failed, h1]
  · by_cases him : Watchdog.MAX_RETRIES ≤ itemRc <;>
      simp [Watchdog.retry_proposal, him, h2, publishCount]
  · simp [Resolver.handler, transition_state, h3]
  · simp [Resolver.handler, transition_state, h3]

/-- C4 witness. -/
theorem c4_amended_witness :
    Watchdog.transition_to_failed (some ⟨"PROPOSED", 900, 0, none, none⟩) 1000 =
      (some ⟨"PROPOSED", 900, 0, none, none⟩, false) ∧
    ((Watchdog.retry_proposal (some ⟨"PROPOSED", 900, 0, none, none⟩) 0 1000).1 =
        some ⟨"PROPOSED", 900, 0, none, none⟩ ∧
      publishCount (Watchdog.retry_proposal
        (some ⟨"PROPOSED", 900, 0, none, none⟩) 0 1000).2.1 = 0 ∧
      (Watchdog.retry_proposal (some ⟨"PROPOSED", 900, 0, none, none⟩) 0 1000).2.2 =
        false) ∧
    (Resolver.handler ⟨some "inc-2", some "diag"⟩
      (some ⟨"PROPOSED", 900, 0, none, none⟩) 1000
      (AgentBehavior.returns (some true))).result =
      HResult.raised "ConditionalCheckFailedException" ∧
    Resolver.handler ⟨some "inc-2", some "diag"⟩
        (some ⟨"PROPOSED", 900, 0, none, none⟩) 1000
        (AgentBehavior.raisesAgentError "mcp_init" "init failed") =
      { store := some ⟨"PROPOSED", 900, 0, none, none⟩,
        trace := [Effect.invokeAgent, Effect.casWrite "RESOLVING" "PROPOSAL_FAILED"],
        result := HResult.ackStatus 200 "PROPOSAL_FAILED" (some "mcp_init") } :=
  c4_amended_cas_loss_behavior ⟨"PROPOSED", 900, 0, none, none⟩ 0 1000
    "inc-2" "diag" "mcp_init" "init failed" (by decide) (by decide) (by decide)

end IncidentModel

namespace IncidentModel

/-- Publish counting distributes over trace concatenation. -/
theorem publishCount_append (a b : List Effect) :
    publishCount (a ++ b) = publishCount a + publishCount b := by
  simp [publishCount, List.filter_append]

/-- `transition_state` never touches `retry_count`. -/
theorem transition_state_rc (st : Store) (now : Int) (f t : String)
    (er ec : Option String) : rcOf (transition_state st now f t er ec).1 = rcOf st := by
  rcases st with _ | r
  · rfl
  · by_cases h : r.status = f <;> simp [transition_state, h, rcOf]

/-- Per-step facts for the retry bound: a step publishes at most once,
the stored retry count grows by at least the number of publishes, and a
publishing step starts strictly below `MAX_RETRIES`. -/
theorem stepStore_facts (st : Store) (s : WStep) :
    publishCount (stepStore st s).2 ≤ 1 ∧
    rcOf st + publishCount (stepStore st s).2 ≤ rcOf (stepStore st s).1 ∧
    (publishCount (stepStore st s).2 = 1 → rcOf st < Watchdog.MAX_RETRIES) := by
  rcases s with now | ⟨f, t, now⟩
  · rcases st with _ | r
    · simp [stepStore, Watchdog.handler, publishCount, rcOf]
    · by_cases h1 : r.status = "INVESTIGATING" ∧ r.updatedAt < now - Watchdog.staleSeconds
      · simp [stepStore, Watchdog.handler, Watchdog.transition_to_failed, h1, h1.1,
          publishCount, rcOf]
      · by_cases h2 : r.status = "PROPOSAL_FAILED" ∧ r.updatedAt < now - Watchdog.retrySeconds
        · by_cases him : Watchdog.MAX_RETRIES ≤ r.retryCount
          · simp [stepStore, Watchdog.handler, Watchdog.retry_proposal, h1, h2, h2.1,
              him, publishCount, rcOf]
          · simp [stepStore, Watchdog.handler, Watchdog.retry_proposal, h1, h2, h2.1,
              him, publishCount, rcOf]
            omega
        · simp [stepStore, Watchdog.handler, h1, h2, publishCount, rcOf]
  · have hrc := transition_state_rc st now f t none none
    simp [stepStore, publishCount, hrc]

/-- Across any sequence of watchdog runs and supervisor/resolver status
transitions on one record, the number of handoff publishes is bounded
by `MAX_RETRIES` minus the starting retry count. -/
theorem runSteps_publish_bound (steps : List WStep) (st : Store) :
    publishCount (runSteps st steps).2 ≤ Watchdog.MAX_RETRIES - rcOf st := by
  induction steps generalizing st with
  | nil => simp [runSteps, publishCount]
  | cons s rest ih =>
    have hf := stepStore_facts st s
    have hq := ih (stepStore st s).1
    simp only [runSteps] at *
    rw [publishCount_append]
    have hp : publishCount (stepStore st s).2 = 0 ∨
        publishCount (stepStore st s).2 = 1 := by omega
    rcases hp with hp | hp
    · have h21 := hf.2.1
      omega
    · have := hf.2.2 hp
      have h21 := hf.2.1
      omega

end IncidentModel

namespace IncidentModel

/-- C6 confirmed: for a `PROPOSAL_FAILED` record older than the retry
threshold, a watchdog run either (retry count exhausted) CAS-writes
`FAILED` with an error reason containing "exhausted" and publishes
nothing, or (retries remaining) CAS-writes `RESOLVING` with the retry
count incremented and publishes exactly one handoff; a losing CAS in
`retry_proposal` publishes nothing; and across any sequence of watchdog
runs interleaved with supervisor/resolver status transitions the number
of publishes never exceeds `MAX_RETRIES` minus the starting retry
count. -/
theorem c6_watchdog_retry_policy (r : Record) (now : Int) (st : Store)
    (steps : List WStep)
    (hpf : r.status = "PROPOSAL_FAILED")
    (hold : r.updatedAt < now - Watchdog.retrySeconds) :
    (Watchdog.MAX_RETRIES ≤ r.retryCount →
      Watchdog.handler (some r) now =
        (some ⟨"FAILED", now, r.retryCount,
          some ("max retries (2) " ++ "exhausted"), r.errorCategory⟩,
         [Effect.casWrite "PROPOSAL_FAILED" "FAILED"]) ∧
      (∃ pre post : String,
        ("max retries (2) " ++ "exhausted") = pre ++ "exhausted" ++ post) ∧
      publishCount (Watchdog.handler (some r) now).2 = 0) ∧
    (r.retryCount < Watchdog.MAX_RETRIES →
      Watchdog.handler (some r) now =
        (some ⟨"RESOLVING", now, r.retryCount + 1, r.errorReason, r.errorCategory⟩,
         [Effect.casWrite "PROPOSAL_FAILED" "RESOLVING", Effect.publish]) ∧
      publishCount (Watchdog.handler (some r) now).2 = 1) ∧
    (∀ r2 : Record, r2.status ≠ "PROPOSAL_FAILED" →
      publishCount (Watchdog.retry_proposal (some r2) r2.retryCount now).2.1 = 0 ∧
      (Watchdog.retry_proposal (some r2) r2.retryCount now).2.2 = false) ∧
    publishCount (runSteps st steps).2 ≤ Watchdog.MAX_RETRIES - rcOf st := by
  refine ⟨?_, ?_, ?_, runSteps_publish_bound steps st⟩
  · intro him
    refine ⟨?_, ⟨"max retries (2) ", "", by decide⟩, ?_⟩ <;>
      simp [Watchdog.handler, Watchdog.retry_proposal, hpf, hold, him, publishCount]
  · intro him
    have him2 : ¬ Watchdog.MAX_RETRIES ≤ r.retryCount := by omega
    constructor <;>
      simp [Watchdog.handler, Watchdog.retry_proposal, hpf, hold, him2, publishCount]
  · intro r2 h2
    by_cases him : Watchdog.MAX_RETRIES ≤ r2.retryCount <;>
      simp [Watchdog.retry_proposal, him, h2, publishCount]

/-- C6 witness: an exhausted record (retry count 2) and the empty step
sequence. -/
theorem c6_witness :
    ((Watchdog.MAX_RETRIES ≤ (2 : Nat) →
      Watchdog.handler (some ⟨"PROPOSAL_FAILED", 0, 2, some "prior", none⟩) 1000 =
        (some ⟨"FAILED", 1000, 2, some ("max retries (2) " ++ "exhausted"), none⟩,
         [Effect.casWrite "PROPOSAL_FAILED" "FAILED"]) ∧
      (∃ pre post : String,
        ("max retries (2) " ++ "exhausted") = pre ++ "exhausted" ++ post) ∧
      publishCount (Watchdog.handler
        (some ⟨"PROPOSAL_FAILED", 0, 2, some "prior", none⟩) 1000).2 = 0) ∧
    ((2 : Nat) < Watchdog.MAX_RETRIES →
      Watchdog.handler (some ⟨"PROPOSAL_FAILED", 0, 2, some "prior", none⟩) 1000 =
        (some ⟨"RESOLVING", 1000, 3, some "prior", none⟩,
         [Effect.casWrite "PROPOSAL_FAILED" "RESOLVING", Effect.publish]) ∧
      publishCount (Watchdog.handler
        (some ⟨"PROPOSAL_FAILED", 0, 2, some "prior", none⟩) 1000).2 = 1) ∧
    (∀ r2 : Record, r2.status ≠ "PROPOSAL_FAILED" →
      publishCount (Watchdog.retry_proposal (some r2) r2.retryCount 1000).2.1 = 0 ∧
      (Watchdog.retry_proposal (some r2) r2.retryCount 1000).2.2 = false) ∧
    publishCount (runSteps (some ⟨"PROPOSAL_FAILED", 0, 0, none, none⟩)
      [WStep.wd 1000, WStep.tr "RESOLVING" "PROPOSAL_FAILED" 1300,
       WStep.wd 2000, WStep.tr "RESOLVING" "PROPOSAL_FAILED" 2300,
       WStep.wd 3000]).2 ≤
      Watchdog.MAX_RETRIES - rcOf (some ⟨"PROPOSAL_FAILED", 0, 0, none, none⟩)) :=
  c6_watchdog_retry_policy ⟨"PROPOSAL_FAILED", 0, 2, some "prior", none⟩ 1000
    (some ⟨"PROPOSAL_FAILED", 0, 0, none, none⟩)
    [WStep.wd 1000, WStep.tr "RESOLVING" "PROPOSAL_FAILED" 1300,
     WStep.wd 2000, WStep.tr "RESOLVING" "PROPOSAL_FAILED" 2300,
     WStep.wd 3000] rfl (by decide)

end IncidentModel

namespace IncidentModel

set_option maxRecDepth 2000 in
/-- C7 counterexample: on an authorization error from the reasoning
service the category the code classifies, raises, and stores is the
literal `"bedrock_auth"`, not `"auth"` as the claim states. -/
theorem c7_counterexample :
    (run_agent supervisorClassify
      [AttemptOutcome.exc (Exc.clientError "AccessDeniedException" "denied"),
       AttemptOutcome.ok]).raisedErr =
      some { category := "bedrock_auth", message := "denied" } ∧
    (Supervisor.handler ⟨some "data-processor", some "T2"⟩ none 1000
      (AgentBehavior.raisesAgentError "bedrock_auth" "denied")).store =
      some ⟨"FAILED", 1000, 0, some "denied", some "bedrock_auth"⟩ ∧
    ("bedrock_auth" : String) ≠ "auth" := by decide

set_option maxRecDepth 4000 in
/-- C7 amended: an authorization `ClientError` on the first call makes
`run_agent` (under either classifier) attempt exactly one call, take no
backoff sleep, and raise the `AgentError` with category
`"bedrock_auth"` immediately; each stage then transitions directly to
its failure state storing `error_category = "bedrock_auth"` (the code
name of the auth category of the spec). -/
theorem c7_amended_auth_single_call (code m ln ts iid diag : String)
    (o2 : AttemptOutcome) (r rr : Record) (now : Int)
    (hc : code = "AccessDeniedException" ∨ code = "UnauthorizedException")
    (hr : r.status = "RECEIVED") (hrr : rr.status = "RESOLVING") :
    run_agent supervisorClassify [AttemptOutcome.exc (Exc.clientError code m), o2] =
      { returned := false, raisedErr := some { category := "bedrock_auth", message := m },
        calls := 1, sleeps := [] } ∧
    run_agent sharedClassify [AttemptOutcome.exc (Exc.clientError code m), o2] =
      { returned := false, raisedErr := some { category := "bedrock_auth", message := m },
        calls := 1, sleeps := [] } ∧
    (Supervisor.handler ⟨some ln, some ts⟩ (some r) now
      (AgentBehavior.raisesAgentError "bedrock_auth" m)).store =
      some ⟨"FAILED", now, r.retryCount, some (pyTake500 m), some "bedrock_auth"⟩ ∧
    (Resolver.handler ⟨some iid, some diag⟩ (some rr) now
      (AgentBehavior.raisesAgentError "bedrock_auth" m)).store =
      some ⟨"PROPOSAL_FAILED", now, rr.retryCount, some (pyTake500 m), some "bedrock_auth"⟩ := by
  refine ⟨?_, ?_, ?_, ?_⟩
  · rcases hc with rfl | rfl <;>
      simp [run_agent, runAgentGo, supervisorClassify, PERMANENT_CATEGORIES]
  · rcases hc with rfl | rfl <;>
      simp [run_agent, runAgentGo, sharedClassify, PERMANENT_CATEGORIES]
  · simp [Supervisor.handler, Supervisor.proceedPhase, transition_state, hr]
  · simp [Resolver.handler, transition_state, hrr]

/-- C7 witness. -/
theorem c7_amended_witness :
    run_agent supervisorClassify
      [AttemptOutcome.exc (Exc.clientError "UnauthorizedException" "no access"),
       AttemptOutcome.ok] =
      { returned := false,
        raisedErr := some { category := "bedrock_auth", message := "no access" },
        calls := 1, sleeps := [] } ∧
    run_agent sharedClassify
      [AttemptOutcome.exc (Exc.clientError "UnauthorizedException" "no access"),
       AttemptOutcome.ok] =
      { returned := false,
        raisedErr := some { category := "bedrock_auth", message := "no access" },
        calls := 1, sleeps := [] } ∧
    (Supervisor.handler ⟨some "data-processor", some "T2"⟩
      (some ⟨"RECEIVED", 0, 0, none, none⟩) 1000
      (AgentBehavior.raisesAgentError "bedrock_auth" "no access")).store =
      some ⟨"FAILED", 1000, 0, some (pyTake500 "no access"), some "bedrock_auth"⟩ ∧
    (Resolver.handler ⟨some "inc-3", some "diag"⟩
      (some ⟨"RESOLVING", 0, 0, none, none⟩) 1000
      (AgentBehavior.raisesAgentError "bedrock_auth" "no access")).store =
      some ⟨"PROPOSAL_FAILED", 1000, 0, some (pyTake500 "no access"), some "bedrock_auth"⟩ :=
  c7_amended_auth_single_call "UnauthorizedException" "no access" "data-processor" "T2"
    "inc-3" "diag" AttemptOutcome.ok ⟨"RECEIVED", 0, 0, none, none⟩
    ⟨"RESOLVING", 0, 0, none, none⟩ 1000 (Or.inr rfl) rfl rfl

end IncidentModel

namespace IncidentModel

/-- C8 counterexample: in the Intake (supervisor) reasoning loop a
plain-text response (empty or absent `tool_calls`) routes straight to
`"end"`, which the graph maps to END — the supervisor router has no
nudge target at all, so no directive is ever injected. -/
theorem c8_counterexample :
    sup_route_after_reason (some []) = "end" ∧
    sup_route_after_reason none = "end" ∧
    List.lookup "end" supervisorRouteMap = some "END" ∧
    List.lookup "nudge" supervisorRouteMap = none := by decide

/-- C8 amended: only the Resolution loop nudges.  On plain text with no
proposal extracted and no nudge sent, the resolver router returns
`"nudge"`, which the graph maps to `nudge_proposal`; that node sets the
`_nudged` flag and the graph loops back to `agent_reason` once more.
On plain text when already nudged the resolver loop ends with no
outcome.  The Intake loop ends immediately on any plain-text
response. -/
theorem c8_amended_nudge_only_in_resolver (s : ResRouteState)
    (tc : Option (List String))
    (hplain : s.lastToolCalls = none ∨ s.lastToolCalls = some [])
    (htc : tc = none ∨ tc = some []) :
    (¬ s.proposalPresent ∧ ¬ s.nudged →
      res_route_after_reason s = "nudge" ∧
      List.lookup "nudge" resolverRouteMap = some "nudge_proposal" ∧
      nudge_proposal.2 = true ∧
      ("nudge_proposal", "agent_reason") ∈ resolverGraphEdges) ∧
    (s.nudged = true →
      res_route_after_reason s = "end" ∧
      List.lookup "end" resolverRouteMap = some "END") ∧
    sup_route_after_reason tc = "end" := by
  refine ⟨?_, ?_, ?_⟩
  · intro h
    rcases hplain with hp | hp <;>
      simp [res_route_after_reason, hp, h.1, h.2] <;> decide
  · intro h
    rcases hplain with hp | hp <;>
      simp [res_route_after_reason, hp, h] <;> decide
  · rcases htc with ht | ht <;> simp [sup_route_after_reason, ht]

/-- C8 witness. -/
theorem c8_amended_witness :
    (¬ (false : Bool) = true ∧ ¬ (false : Bool) = true →
      res_route_after_reason ⟨none, false, false⟩ = "nudge" ∧
      List.lookup "nudge" resolverRouteMap = some "nudge_proposal" ∧
      nudge_proposal.2 = true ∧
      ("nudge_proposal", "agent_reason") ∈ resolverGraphEdges) ∧
    ((false : Bool) = true →
      res_route_after_reason ⟨none, false, false⟩ = "end" ∧
      List.lookup "end" resolverRouteMap = some "END") ∧
    sup_route_after_reason (some []) = "end" :=
  c8_amended_nudge_only_in_resolver ⟨none, false, false⟩ (some [])
    (Or.inl rfl) (Or.inr rfl)

/-- C10 counterexample: an instance of the resolver-module
`McpInitError` class is classified `mcp_init` by the shared utilities
(name-based check) but `unknown` by the supervisor-agent classifier
(isinstance against its own class), so the two classifiers are not
extensionally equal. -/
theorem c10_counterexample :
    supervisorClassify (Exc.mcpInitRes "init failed") ≠
      sharedClassify (Exc.mcpInitRes "init failed") ∧
    supervisorClassify (Exc.mcpInitRes "init failed") =
      { category := "unknown", message := "init failed" } ∧
    sharedClassify (Exc.mcpInitRes "init failed") =
      { category := "mcp_init", message := "init failed" } := by decide

/-- C10 amended: the two classifiers agree — same category and same
message — on every exception whose classification leaf (following the
first sub-exception of exception groups) is not the resolver-module
`McpInitError`; on that class they differ as the counterexample
shows. -/
theorem c10_amended_classifiers_agree (e : Exc)
    (h : leafIsResolverInit e = false) :
    supervisorClassify e = sharedClassify e := by
  induction e with
  | excGroup first msg ih =>
    simp only [leafIsResolverInit] at h
    simp only [supervisorClassify, sharedClassify]
    exact ih h
  | timeout m => rfl
  | connOrOs m => rfl
  | mcpInitSup m => rfl
  | mcpInitRes m => simp [leafIsResolverInit] at h
  | clientError code m => rfl
  | otherExc m => rfl

/-- C10 witness: agreement on a botocore throttling error wrapped in an
exception group. -/
theorem c10_amended_witness :
    supervisorClassify (Exc.excGroup
      (Exc.clientError "ThrottlingException" "slow down") "group msg") =
    sharedClassify (Exc.excGroup
      (Exc.clientError "ThrottlingException" "slow down") "group msg") :=
  c10_amended_classifiers_agree
    (Exc.excGroup (Exc.clientError "ThrottlingException" "slow down") "group msg")
    (by decide)

end IncidentModel

namespace IncidentModel

/-- Replacing the value at a key by a value of smaller serialised
length does not increase the serialised length of the field list. -/
theorem dumpLenObj_setKey_mono (k : String) (v1 v2 : Json)
    (h : dumpLen v2 ≤ dumpLen v1) :
    ∀ fs : List (String × Json),
      dumpLenObj (jSetKey fs k v2) ≤ dumpLenObj (jSetKey fs k v1)
  | [] => le_refl _
  | kv :: rest => by
    by_cases hk : kv.1 = k
    · simp [jSetKey, hk, dumpLenObj]
      omega
    · simp [jSetKey, hk, dumpLenObj]
      have := dumpLenObj_setKey_mono k v1 v2 h rest
      omega

/-- Object-level version of `dumpLenObj_setKey_mono`. -/
theorem dumpLen_objSetKey_mono (fs : List (String × Json)) (k : String)
    (v1 v2 : Json) (h : dumpLen v2 ≤ dumpLen v1) :
    dumpLen (Json.obj (jSetKey fs k v2)) ≤ dumpLen (Json.obj (jSetKey fs k v1)) := by
  cases fs with
  | nil => simp [jSetKey]
  | cons kv rest =>
    by_cases hk : kv.1 = k
    · simp [jSetKey, hk, dumpLen, dumpLenObj]
      omega
    · simp [jSetKey, hk, dumpLen, dumpLenObj]
      have := dumpLenObj_setKey_mono k v1 v2 h rest
      omega

/-- Writing back the looked-up value is the identity. -/
theorem jSetKey_self (k : String) (v : Json) :
    ∀ fs : List (String × Json), jLookup fs k = some v → jSetKey fs k v = fs
  | [], h => by simp [jLookup] at h
  | kv :: rest, h => by
    by_cases hk : kv.1 = k
    · subst hk
      simp only [jLookup, if_pos, Option.some.injEq] at h
      subst h
      simp [jSetKey]
    · simp only [jLookup, hk, if_neg, not_false_iff] at h
      simp [jSetKey, hk, jSetKey_self k v rest h]

/-- Dropping the head of an array does not increase its serialised
length. -/
theorem dumpLen_arr_tail_le (e : Json) (rest : List Json) :
    dumpLen (Json.arr rest) ≤ dumpLen (Json.arr (e :: rest)) := by
  cases rest with
  | nil => simp [dumpLen, dumpLenArr]
  | cons f rest2 =>
    simp [dumpLen, dumpLenArr]

/-- Each popped event weakly shrinks the rebuilt context. -/
theorem logsRebuild_mono (ctxFs toolFs logFs : List (String × Json))
    (e : Json) (rest : List Json) :
    estimate_tokens (logsRebuild ctxFs toolFs logFs rest) ≤
      estimate_tokens (logsRebuild ctxFs toolFs logFs (e :: rest)) := by
  apply Nat.div_le_div_right
  exact dumpLen_objSetKey_mono ctxFs "tools" _ _
    (dumpLen_objSetKey_mono toolFs "cloudwatch_logs" _ _
      (dumpLen_objSetKey_mono logFs "events" _ _ (dumpLen_arr_tail_le e rest)))

/-- Rebuilding with the original events list reproduces the original
context. -/
theorem logsRebuild_self (ctxFs toolFs logFs : List (String × Json))
    (es : List Json)
    (h1 : jLookup ctxFs "tools" = some (Json.obj toolFs))
    (h2 : jLookup toolFs "cloudwatch_logs" = some (Json.obj logFs))
    (h3 : jLookup logFs "events" = some (Json.arr es)) :
    logsRebuild ctxFs toolFs logFs es = Json.obj ctxFs := by
  unfold logsRebuild
  rw [jSetKey_self "events" (Json.arr es) logFs h3,
    jSetKey_self "cloudwatch_logs" (Json.obj logFs) toolFs h2,
    jSetKey_self "tools" (Json.obj toolFs) ctxFs h1]

/-- The pop loop never increases the estimate of the rebuilt
context. -/
theorem dropLoop_est_le (rebuild : List Json → Json) (b : Int)
    (hmono : ∀ (e : Json) (rest : List Json),
      estimate_tokens (rebuild rest) ≤ estimate_tokens (rebuild (e :: rest))) :
    ∀ es : List Json,
      estimate_tokens (rebuild (dropLoop rebuild b es)) ≤
        estimate_tokens (rebuild es)
  | [] => le_refl _
  | e :: rest => by
    unfold dropLoop
    split
    · exact le_refl _
    · exact le_trans (dropLoop_est_le rebuild b hmono rest) (hmono e rest)

/-- The log-dropping pass is monotone in the token estimate. -/
theorem drop_oldest_logs_estimate_le (ctx : Json) (b : Int) :
    estimate_tokens (drop_oldest_logs ctx b).1 ≤ estimate_tokens ctx := by
  unfold drop_oldest_logs
  repeat' split
  all_goals try exact le_refl _
  rename_i ctxFs x1 toolFs heq1 x2 logFs heq2 x3 es heq3 hover
  dsimp only
  calc estimate_tokens (logsRebuild ctxFs toolFs logFs
        (dropLoop (logsRebuild ctxFs toolFs logFs) b es))
      ≤ estimate_tokens (logsRebuild ctxFs toolFs logFs es) :=
        dropLoop_est_le _ b (logsRebuild_mono ctxFs toolFs logFs) es
    _ = estimate_tokens (Json.obj ctxFs) := by
        rw [logsRebuild_self ctxFs toolFs logFs es heq1 heq2 heq3]

end IncidentModel

namespace IncidentModel

/-- C9 counterexample: a bundle whose only evidence is an IAM inline
policy `{"Statement": [{}]}` is over a budget of 1, and the policy-trim
pass replaces the document by `{"StatementSids": ["unnamed"]}` — a
*longer* serialisation — so `truncate_to_budget` (and the trim pass
alone) strictly increases the token estimate, refuting monotonicity. -/
theorem c9_counterexample :
    estimate_tokens (Json.obj [("tools", Json.obj [("iam_policy", Json.obj
      [("inline_policies", Json.obj [("p", Json.obj
        [("Statement", Json.arr [Json.obj []])])])])])]) <
      estimate_tokens (truncate_to_budget (Json.obj [("tools", Json.obj
        [("iam_policy", Json.obj [("inline_policies", Json.obj [("p", Json.obj
          [("Statement", Json.arr [Json.obj []])])])])])]) 1).1 ∧
    estimate_tokens (Json.obj [("tools", Json.obj [("iam_policy", Json.obj
      [("inline_policies", Json.obj [("p", Json.obj
        [("Statement", Json.arr [Json.obj []])])])])])]) <
      estimate_tokens (trim_iam_to_sids (Json.obj [("tools", Json.obj
        [("iam_policy", Json.obj [("inline_policies", Json.obj [("p", Json.obj
          [("Statement", Json.arr [Json.obj []])])])])])]) 1).1 := by decide

/-- C9 amended: the log-dropping pass never increases the token
estimate of the bundle, and once the bundle is at or under a given
budget, `truncate_to_budget` and each individual pass return it
unchanged; the policy-trim pass (hence `truncate_to_budget` as a whole)
is *not* monotone — the counterexample shows it can grow a tiny policy
document. -/
theorem c9_amended_truncation (ctx : Json) (b : Int) (ctx2 : Json) (b2 : Int)
    (hb : (estimate_tokens ctx : Int) ≤ b) :
    estimate_tokens (drop_oldest_logs ctx2 b2).1 ≤ estimate_tokens ctx2 ∧
    (drop_oldest_logs ctx b).1 = ctx ∧
    (trim_iam_to_sids ctx b).1 = ctx ∧
    (drop_lambda_config ctx b).1 = ctx ∧
    (truncate_to_budget ctx b).1 = ctx := by
  refine ⟨drop_oldest_logs_estimate_le ctx2 b2, ?_, ?_, ?_, ?_⟩
  · unfold drop_oldest_logs
    repeat' split
    all_goals rfl
  · unfold trim_iam_to_sids
    repeat' split
    all_goals rfl
  · unfold drop_lambda_config
    repeat' split
    all_goals rfl
  · unfold truncate_to_budget
    repeat' split
    all_goals rfl

/-- C9 witness: an in-budget bundle is untouched, and the log pass is
monotone on the counterexample bundle. -/
theorem c9_amended_witness :
    estimate_tokens (drop_oldest_logs (Json.obj [("tools", Json.obj
      [("cloudwatch_logs", Json.obj [("events", Json.arr
        [Json.str "aaaaaaaaaaaaaaaaaaaa", Json.str "bbbbbbbbbbbbbbbbbbbb"])])])]) 10).1 ≤
      estimate_tokens (Json.obj [("tools", Json.obj
        [("cloudwatch_logs", Json.obj [("events", Json.arr
          [Json.str "aaaaaaaaaaaaaaaaaaaa", Json.str "bbbbbbbbbbbbbbbbbbbb"])])])]) ∧
    (drop_oldest_logs (Json.obj [("incident", Json.str "x")]) 100).1 =
      Json.obj [("incident", Json.str "x")] ∧
    (trim_iam_to_sids (Json.obj [("incident", Json.str "x")]) 100).1 =
      Json.obj [("incident", Json.str "x")] ∧
    (drop_lambda_config (Json.obj [("incident", Json.str "x")]) 100).1 =
      Json.obj [("incident", Json.str "x")] ∧
    (truncate_to_budget (Json.obj [("incident", Json.str "x")]) 100).1 =
      Json.obj [("incident", Json.str "x")] :=
  c9_amended_truncation (Json.obj [("incident", Json.str "x")]) 100
    (Json.obj [("tools", Json.obj [("cloudwatch_logs", Json.obj [("events", Json.arr
      [Json.str "aaaaaaaaaaaaaaaaaaaa", Json.str "bbbbbbbbbbbbbbbbbbbb"])])])]) 10
    (by decide)

end IncidentModel
